import Mathlib

/-!
Shallow embedding of the games CRUD service: the string-length validation
helper (`server/models/base.py`), the `Game` entity with its attribute
validators and JSON projection (`server/models/game.py`), and the HTTP
handlers for the `/api/games` resource (`server/routes/games.py`).

JSON scalar values carried in request bodies and stored in entity
attributes are modelled by `JVal`; full JSON trees appearing in responses
by `Json`.  The database is modelled by `AppState`, lists of rows keyed by
integer ids; a handler is a function from state (and request data) to a
`Response` paired with the post-state.  The session commits only at the
`db.session.commit()` points of the source, so an early error return
leaves the state unchanged, exactly as the uncommitted SQLAlchemy session
is discarded at request teardown.
-/

/-- A scalar JSON/Python value as it appears in request-body fields and in
entity attributes: `null` (Python `None`), a string, a number, a boolean. -/
inductive JVal where
  | null : JVal
  | str (s : String) : JVal
  | num (q : Rat) : JVal
  | boolean (b : Bool) : JVal
  deriving DecidableEq, Repr

/-- A full JSON tree, used for response bodies. -/
inductive Json where
  | null : Json
  | str (s : String) : Json
  | num (q : Rat) : Json
  | boolean (b : Bool) : Json
  | arr (xs : List Json) : Json
  | obj (fs : List (String × Json)) : Json
  deriving Repr

/-- Embed a scalar value into a JSON tree. -/
def JVal.toJson : JVal → Json
  | .null => .null
  | .str s => .str s
  | .num q => .num q
  | .boolean b => .boolean b

/-- `isinstance(value, str)` on a scalar value. -/
def JVal.isStr : JVal → Bool
  | .str _ => true
  | _ => false

/-- Python's `str.strip()`: remove leading and trailing whitespace.
Defined over the character list so that it evaluates by structural
recursion. -/
def pyStrip (s : String) : String :=
  ⟨((s.data.dropWhile Char.isWhitespace).reverse.dropWhile Char.isWhitespace).reverse⟩

/-- `server/models/base.py`, `BaseModel.validate_string_length`: checks
`None` against `allow_none`, then `isinstance(value, str)`, then
`len(value.strip()) < min_length`; returns the original (untrimmed) value
on success, raises `ValueError` (modelled as `.error`) otherwise. -/
def validate_string_length (field_name : String) (value : JVal)
    (min_length : Nat := 2) (allow_none : Bool := false) : Except String JVal :=
  match value with
  | .null =>
      if allow_none then .ok .null
      else .error (field_name ++ " cannot be empty")
  | .str s =>
      if (pyStrip s).length < min_length then
        .error (field_name ++ " must be at least " ++ toString min_length ++ " characters")
      else .ok (.str s)
  | .num _ => .error (field_name ++ " must be a string")
  | .boolean _ => .error (field_name ++ " must be a string")

namespace Game

/-- `server/models/game.py`: the `description` column is declared
`db.Column(db.Text, nullable=False)`. -/
def descriptionColNullable : Bool := false

/-- `Game.validate_name` (the `@validates('title')` hook):
`validate_string_length('Game title', name, min_length=2)`. -/
def validate_title (name : JVal) : Except String JVal :=
  validate_string_length "Game title" name 2 false

/-- `Game.validate_description` (the `@validates('description')` hook):
if the value is not `None`, delegate with `min_length=10, allow_none=True`;
otherwise return the value (i.e. `None`) unchanged. -/
def validate_description (description : JVal) : Except String JVal :=
  if description ≠ .null then
    validate_string_length "Description" description 10 true
  else .ok description

end Game

/-- A row of the `publishers` table (only the columns the game routes use). -/
structure PublisherRow where
  id : Int
  name : String
  deriving DecidableEq, Repr

/-- A row of the `categories` table (only the columns the game routes use). -/
structure CategoryRow where
  id : Int
  name : String
  deriving DecidableEq, Repr

/-- A row of the `games` table: attributes hold the scalar values assigned
through the ORM (validators may let `null` through to `description`, and
`star_rating` and the foreign-key attributes are stored unvalidated). -/
structure GameRow where
  id : Int
  title : JVal
  description : JVal
  star_rating : JVal
  publisher_id : JVal
  category_id : JVal
  deriving DecidableEq, Repr

/-- The persistent store: the three tables plus the autoincrement counter
for `games.id`. -/
structure AppState where
  publishers : List PublisherRow
  categories : List CategoryRow
  games : List GameRow
  nextGameId : Int
  deriving DecidableEq, Repr

/-- An integer primary-key value carried in a scalar JSON value
(`Publisher.query.get(v)` / foreign-key comparison resolves only integral
numbers). -/
def JVal.toId : JVal → Option Int
  | .num q => if q.den = 1 then some q.num else none
  | _ => none

/-- `Publisher.query.get(v)` / the `publisher` relationship lookup. -/
def AppState.findPublisher (st : AppState) (v : JVal) : Option PublisherRow :=
  match v.toId with
  | some i => st.publishers.find? (fun p => p.id = i)
  | none => none

/-- `Category.query.get(v)` / the `category` relationship lookup. -/
def AppState.findCategory (st : AppState) (v : JVal) : Option CategoryRow :=
  match v.toId with
  | some i => st.categories.find? (fun c => c.id = i)
  | none => none

/-- `Game.query.get(id)` / `get_games_base_query().filter(Game.id == id).first()`:
the outer joins never drop a game row, so both reduce to lookup by id. -/
def AppState.findGame (st : AppState) (id : Int) : Option GameRow :=
  st.games.find? (fun g => g.id = id)

/-- `Game.to_dict` (`server/models/game.py`): the fixed six-key projection,
with nested `{id, name}` summaries of the related publisher and category
rows resolved through the relationships (null when the related row is
absent), and `star_rating` emitted under the key `starRating`. -/
def Game.to_dict (st : AppState) (g : GameRow) : Json :=
  .obj [
    ("id", .num (g.id : Rat)),
    ("title", g.title.toJson),
    ("description", g.description.toJson),
    ("publisher",
      match st.findPublisher g.publisher_id with
      | some p => .obj [("id", .num (p.id : Rat)), ("name", .str p.name)]
      | none => .null),
    ("category",
      match st.findCategory g.category_id with
      | some c => .obj [("id", .num (c.id : Rat)), ("name", .str c.name)]
      | none => .null),
    ("starRating", g.star_rating.toJson)
  ]

/-- An HTTP response: status code and JSON body. -/
structure Response where
  status : Nat
  body : Json

/-- `jsonify({"error": msg}), code`. -/
def errResp (code : Nat) (msg : String) : Response :=
  ⟨code, .obj [("error", .str msg)]⟩

/-- A parsed JSON request body: `none` models `request.get_json(force=True,
silent=True)` returning `None` (missing or unparsable body); `some d` a
JSON object with fields `d`. -/
abbrev ReqBody := Option (List (String × JVal))

/-- `field in data` for a parsed JSON object. -/
def hasField (d : List (String × JVal)) (k : String) : Bool :=
  (d.lookup k).isSome

/-- `data[field]` (and `data.get(field)`, which yields `None`, i.e. `null`,
when the key is absent). -/
def getField (d : List (String × JVal)) (k : String) : JVal :=
  (d.lookup k).getD .null

/-- The NOT NULL constraints of the `games` table checked by the database
at commit time (`title` and `description` are `nullable=False`; foreign
keys are not enforced by the store, matching the handlers' explicit
existence checks). A violation raises `IntegrityError`, answered 409. -/
def commitIntegrityOk (g : GameRow) : Bool :=
  !(g.title == JVal.null) && !(g.description == JVal.null)

/-- `Game(title=..., description=..., category_id=..., publisher_id=...,
star_rating=...)`: keyword assignments run the attribute validators in
order (`title` then `description`); `category_id`, `publisher_id` and
`star_rating` have no validation hook and are stored unchanged. -/
def Game.build (id : Int) (title description category_id publisher_id star_rating : JVal) :
    Except String GameRow :=
  match Game.validate_title title with
  | .error e => .error e
  | .ok t =>
    match Game.validate_description description with
    | .error e => .error e
    | .ok de => .ok ⟨id, t, de, star_rating, publisher_id, category_id⟩

/-- `GET /api/games/<id>` (`get_game` in `server/routes/games.py`): filter
the joined base query by id; 404 `{"error": "Game not found"}` when
absent, otherwise 200 with the `to_dict` projection. Read-only. -/
def get_game (st : AppState) (id : Int) : Response × AppState :=
  match st.findGame id with
  | none => (errResp 404 "Game not found", st)
  | some g => (⟨200, Game.to_dict st g⟩, st)

/-- The `required_fields` list of `create_game`. -/
def required_fields : List String := ["title", "description", "category_id", "publisher_id"]

/-- `missing_fields = [field for field in required_fields if field not in data]`. -/
def missingFields (d : List (String × JVal)) : List String :=
  required_fields.filter (fun f => !hasField d f)

/-- The state after `db.session.add(new_game); db.session.commit()`. -/
def insertGame (st : AppState) (g : GameRow) : AppState :=
  { st with games := st.games ++ [g], nextGameId := st.nextGameId + 1 }

/-- `db.session.add(new_game); db.session.commit()` and the 201 answer:
the commit-time integrity check, then the re-query of the created row. -/
def create_insert (st : AppState) (g : GameRow) : Response × AppState :=
  if commitIntegrityOk g then
    match (insertGame st g).findGame g.id with
    | some cg => (⟨201, Game.to_dict (insertGame st g) cg⟩, insertGame st g)
    | none => (errResp 500 "Internal server error", insertGame st g)
  else (errResp 409 "Database integrity error", st)

/-- Tail of `create_game` from the category existence check on: 404 when
the referenced category is absent, then the `Game(...)` construction whose
validator errors answer 400, then the insert and commit. -/
def create_with_category (st : AppState) (d : List (String × JVal)) :
    Response × AppState :=
  match st.findCategory (getField d "category_id") with
  | none => (errResp 404 "Category not found", st)
  | some _ =>
    match Game.build st.nextGameId (getField d "title") (getField d "description")
        (getField d "category_id") (getField d "publisher_id")
        (getField d "star_rating") with
    | .error e => (errResp 400 e, st)
    | .ok g => create_insert st g

/-- Tail of `create_game` from the publisher existence check on. -/
def create_with_publisher (st : AppState) (d : List (String × JVal)) :
    Response × AppState :=
  match st.findPublisher (getField d "publisher_id") with
  | none => (errResp 404 "Publisher not found", st)
  | some _ => create_with_category st d

/-- Body of `create_game` once the request has parsed to a JSON object. -/
def create_game_obj (st : AppState) (d : List (String × JVal)) : Response × AppState :=
  if d.isEmpty then (errResp 400 "No JSON data provided", st)
  else if (missingFields d).isEmpty then create_with_publisher st d
  else
    (errResp 400 ("Missing required fields: " ++
       String.intercalate ", " (missingFields d)), st)

/-- `POST /api/games` (`create_game` in `server/routes/games.py`): 400 on
missing/empty body; 400 listing the missing required fields; 404 when the
referenced publisher, then category, does not exist; 400 on a validator
`ValueError` while constructing the `Game`; 409 on commit-time integrity
violation; otherwise commit, re-query the created row and answer 201 with
its projection.  Every error path leaves the store unchanged (rollback or
no commit). -/
def create_game (st : AppState) (data : ReqBody) : Response × AppState :=
  match data with
  | none => (errResp 400 "No JSON data provided", st)
  | some d => create_game_obj st d

/-- The state after committing an update of the game with the given id:
every stored row with that id is replaced by the updated row. -/
def replaceGame (st : AppState) (id : Int) (g : GameRow) : AppState :=
  { st with games := st.games.map (fun x => if x.id = id then g else x) }

/-- Tail of `update_game` after all assignments: `db.session.commit()`
(409 and rollback on integrity violation), then re-query the updated row
and answer 200 with its projection. -/
def update_commit (st : AppState) (id : Int) (g : GameRow) : Response × AppState :=
  if commitIntegrityOk g then
    match (replaceGame st id g).findGame id with
    | some ug => (⟨200, Game.to_dict (replaceGame st id g) ug⟩, replaceGame st id g)
    | none => (errResp 500 "Internal server error", replaceGame st id g)
  else (errResp 409 "Database integrity error", st)

/-- Tail of `update_game` from the `'category_id' in data` check on. -/
def update_with_category (st : AppState) (id : Int) (d : List (String × JVal))
    (g : GameRow) : Response × AppState :=
  if hasField d "category_id" then
    match st.findCategory (getField d "category_id") with
    | none => (errResp 404 "Category not found", st)
    | some _ => update_commit st id { g with category_id := getField d "category_id" }
  else update_commit st id g

/-- Tail of `update_game` from the `'publisher_id' in data` check on. -/
def update_with_publisher (st : AppState) (id : Int) (d : List (String × JVal))
    (g : GameRow) : Response × AppState :=
  if hasField d "publisher_id" then
    match st.findPublisher (getField d "publisher_id") with
    | none => (errResp 404 "Publisher not found", st)
    | some _ => update_with_category st id d { g with publisher_id := getField d "publisher_id" }
  else update_with_category st id d g

/-- The `if 'star_rating' in data` assignment (no validation hook) and the
publisher/category tail of `update_game`. -/
def update_star_step (st : AppState) (id : Int) (d : List (String × JVal))
    (g2 : GameRow) : Response × AppState :=
  update_with_publisher st id d
    (if hasField d "star_rating" then
       { g2 with star_rating := getField d "star_rating" }
     else g2)

/-- The `if 'description' in data` assignment of `update_game`: the
validator runs on assignment, a `ValueError` answers 400. -/
def update_description_step (st : AppState) (id : Int) (d : List (String × JVal))
    (g1 : GameRow) : Response × AppState :=
  match (if hasField d "description" then
           (Game.validate_description (getField d "description")).map
             (fun de => { g1 with description := de })
         else .ok g1 : Except String GameRow) with
  | .error e => (errResp 400 e, st)
  | .ok g2 => update_star_step st id d g2

/-- The `if 'title' in data` assignment of `update_game`: the validator
runs on assignment, a `ValueError` answers 400. -/
def update_title_step (st : AppState) (id : Int) (d : List (String × JVal))
    (game : GameRow) : Response × AppState :=
  match (if hasField d "title" then
           (Game.validate_title (getField d "title")).map
             (fun t => { game with title := t })
         else .ok game : Except String GameRow) with
  | .error e => (errResp 400 e, st)
  | .ok g1 => update_description_step st id d g1

/-- Body of `update_game` once the target game was found and the request
has parsed to a JSON object: the conditional assignments of `title`,
`description` and `star_rating`, then the publisher/category tail. -/
def update_game_obj (st : AppState) (id : Int) (game : GameRow)
    (d : List (String × JVal)) : Response × AppState :=
  if d.isEmpty then (errResp 400 "No JSON data provided", st)
  else update_title_step st id d game

/-- `PUT /api/games/<id>` (`update_game` in `server/routes/games.py`):
look up the game first (404 before the body is parsed), then 400 on
missing/empty body, then assign `title`, `description`, `star_rating`,
`publisher_id`, `category_id` if present in the body — validator
`ValueError`s answer 400, a missing referenced publisher/category answers
404 — then commit and answer 200 with the refreshed projection.  Every
error path leaves the store unchanged. -/
def update_game (st : AppState) (id : Int) (data : ReqBody) : Response × AppState :=
  match st.findGame id with
  | none => (errResp 404 "Game not found", st)
  | some game =>
    match data with
    | none => (errResp 400 "No JSON data provided", st)
    | some d => update_game_obj st id game d

/-- `DELETE /api/games/<id>` (`delete_game` in `server/routes/games.py`):
404 when absent, otherwise remove the row, commit and answer 200 with a
confirmation message. -/
def delete_game (st : AppState) (id : Int) : Response × AppState :=
  match st.findGame id with
  | none => (errResp 404 "Game not found", st)
  | some _ =>
    let st' : AppState := { st with games := st.games.filter (fun g => g.id ≠ id) }
    (⟨200, .obj [("message", .str "Game deleted successfully")]⟩, st')

/-! ### Shared lemmas -/

/-- On success, `validate_string_length` returns its input unchanged. -/
theorem validate_string_length_ok (fn : String) (v r : JVal) (ml : Nat) (an : Bool)
    (h : validate_string_length fn v ml an = .ok r) : r = v := by
  cases v <;> simp only [validate_string_length] at h <;>
    first | (split at h <;> simp_all) | simp_all

/-- Every error of `validate_string_length` starts with the field name. -/
theorem validate_string_length_err_names_field (fn : String) (v : JVal) (ml : Nat)
    (an : Bool) (e : String) (h : validate_string_length fn v ml an = .error e) :
    ∃ t, e = fn ++ t := by
  cases v with
  | null =>
    simp only [validate_string_length] at h
    cases an <;> simp_all
    exact ⟨_, h.symm⟩
  | str s =>
    simp only [validate_string_length] at h
    split at h <;> simp_all
    refine ⟨" must be at least " ++ (toString ml ++ " characters"), ?_⟩
    rw [← h, String.append_assoc, String.append_assoc]
  | num q => simp only [validate_string_length] at h; exact ⟨_, (Except.error.inj h).symm⟩
  | boolean b => simp only [validate_string_length] at h; exact ⟨_, (Except.error.inj h).symm⟩

/-! ### Claims -/

/-- C1.  `validate_string_length(field_name, value, min_length, allow_none)`
raises a validation error naming the field (the message starts with the
field name) if and only if: value is null and `allow_none` is false; or
value is non-null and not a string; or value is a string whose stripped
length is below `min_length` (the three checks of the source run in this
order, so each later disjunct presupposes the earlier ones failed).  In
every other case it returns the value unchanged — the original, untrimmed
string — so trimming affects only the length check. -/
theorem C1_validate_string_length (fn : String) (v : JVal) (ml : Nat) (an : Bool) :
    (∀ r, validate_string_length fn v ml an = .ok r → r = v) ∧
    (∀ e, validate_string_length fn v ml an = .error e → ∃ t, e = fn ++ t) ∧
    ((∃ e, validate_string_length fn v ml an = .error e) ↔
      ((v = .null ∧ an = false) ∨
       (v ≠ .null ∧ v.isStr = false) ∨
       (∃ s, v = .str s ∧ (pyStrip s).length < ml))) := by
  refine ⟨fun r h => validate_string_length_ok fn v r ml an h,
          fun e h => validate_string_length_err_names_field fn v ml an e h, ?_⟩
  unfold validate_string_length
  cases v <;> simp [JVal.isStr]
  · cases an <;> simp
  · split <;> simp_all

/-- Witness for C1 at concrete inputs: `"ab"` passes and is returned
unchanged; `" a "` (stripped length 1) is rejected at minimum 2. -/
theorem C1_validate_string_length_witness :
    JVal.str "ab" = JVal.str "ab" ∧
    ((JVal.str " a " = JVal.null ∧ false = false) ∨
     (JVal.str " a " ≠ JVal.null ∧ JVal.isStr (JVal.str " a ") = false) ∨
     (∃ s, JVal.str " a " = JVal.str s ∧ (pyStrip s).length < 2)) :=
  ⟨(C1_validate_string_length "Game title" (JVal.str "ab") 2 false).1 (JVal.str "ab")
     (by simp only [validate_string_length]; rw [if_neg (by decide)]),
   (C1_validate_string_length "Game title" (JVal.str " a ") 2 false).2.2.mp
     ⟨"Game title must be at least 2 characters",
      by simp only [validate_string_length]; rw [if_pos (by decide)]; rfl⟩⟩

/-- A concrete store for witnesses: publisher 1 "DevGames Inc", category 1
"Strategy", game 1 "Pipeline Panic". -/
def sampleState : AppState :=
  { publishers := [⟨1, "DevGames Inc"⟩],
    categories := [⟨1, "Strategy"⟩],
    games := [⟨1, JVal.str "Pipeline Panic",
               JVal.str "Build your DevOps pipeline before chaos ensues",
               JVal.num 4, JVal.num 1, JVal.num 1⟩],
    nextGameId := 2 }

/-- C3.  `Game.validate_description` lets `null` pass through unchanged
(no validation error), even though the `description` column is declared
non-nullable (`nullable=False`); a non-null string description fails
validation exactly when its stripped length is below 10, and otherwise is
returned unchanged. -/
theorem C3_description_nullability :
    Game.validate_description JVal.null = .ok JVal.null ∧
    Game.descriptionColNullable = false ∧
    (∀ s : String,
      ((∃ e, Game.validate_description (JVal.str s) = .error e) ↔ (pyStrip s).length < 10) ∧
      (¬ (pyStrip s).length < 10 →
        Game.validate_description (JVal.str s) = .ok (JVal.str s))) := by
  refine ⟨rfl, rfl, fun s => ?_⟩
  have hne : JVal.str s ≠ JVal.null := by simp
  refine ⟨⟨?_, ?_⟩, ?_⟩
  · rintro ⟨e, he⟩
    rw [Game.validate_description, if_pos hne] at he
    simp only [validate_string_length] at he
    by_cases hlen : (pyStrip s).length < 10
    · exact hlen
    · rw [if_neg hlen] at he; cases he
  · intro hlen
    refine ⟨"Description" ++ " must be at least " ++ toString 10 ++ " characters", ?_⟩
    rw [Game.validate_description, if_pos hne]
    simp only [validate_string_length]
    rw [if_pos hlen]
  · intro hge
    rw [Game.validate_description, if_pos hne]
    simp only [validate_string_length]
    rw [if_neg hge]

/-- Witness for C3: `null` passes, and a 24-character description passes
and is returned untrimmed. -/
theorem C3_description_nullability_witness :
    Game.validate_description JVal.null = .ok JVal.null ∧
    Game.validate_description (JVal.str " a sufficiently long text ") =
      .ok (JVal.str " a sufficiently long text ") :=
  ⟨C3_description_nullability.1,
   (C3_description_nullability.2.2 " a sufficiently long text ").2 (by decide)⟩

/-- C7.  For every id not present in the games store, `get_game` answers
404 with body `{"error": "Game not found"}` and the store is unchanged. -/
theorem C7_get_unknown_404 (st : AppState) (id : Int) (h : st.findGame id = none) :
    get_game st id = (⟨404, Json.obj [("error", Json.str "Game not found")]⟩, st) := by
  simp [get_game, h, errResp]

/-- Witness for C7: id 99 is absent from the sample store. -/
theorem C7_get_unknown_404_witness :
    get_game sampleState 99 =
      (⟨404, Json.obj [("error", Json.str "Game not found")]⟩, sampleState) :=
  C7_get_unknown_404 sampleState 99 (by decide)

/-- C9.  For every update request addressed to an id not present in the
games store, `update_game` answers 404 `{"error": "Game not found"}`
regardless of the request body: the existence check precedes body parsing,
so even a missing (`none`) or empty body yields 404, not 400, and the
store is unchanged. -/
theorem C9_update_unknown_404 (st : AppState) (id : Int) (data : ReqBody)
    (h : st.findGame id = none) :
    update_game st id data = (⟨404, Json.obj [("error", Json.str "Game not found")]⟩, st) := by
  simp [update_game, h, errResp]

/-- Witness for C9: id 99 is absent from the sample store and the body is
missing entirely, yet the answer is 404, not 400. -/
theorem C9_update_unknown_404_witness :
    update_game sampleState 99 none =
      (⟨404, Json.obj [("error", Json.str "Game not found")]⟩, sampleState) :=
  C9_update_unknown_404 sampleState 99 none (by decide)

/-- C5.  A create request whose JSON body is missing or empty is answered
400 `{"error": "No JSON data provided"}`; one whose body lacks any of
`title`, `description`, `category_id`, `publisher_id` is answered 400 with
an error listing the missing field names joined by `", "`; in both cases
no game row is persisted (the store is returned unchanged). -/
theorem C5_create_missing_400 :
    (∀ st : AppState,
       create_game st none =
         (⟨400, Json.obj [("error", Json.str "No JSON data provided")]⟩, st)) ∧
    (∀ st : AppState,
       create_game st (some []) =
         (⟨400, Json.obj [("error", Json.str "No JSON data provided")]⟩, st)) ∧
    (∀ (st : AppState) (d : List (String × JVal)),
       d ≠ [] →
       required_fields.filter (fun f => !hasField d f) ≠ [] →
       create_game st (some d) =
         (⟨400, Json.obj [("error", Json.str ("Missing required fields: " ++
            String.intercalate ", " (required_fields.filter (fun f => !hasField d f))))]⟩,
          st)) := by
  refine ⟨fun st => rfl, fun st => rfl, fun st d hne hmiss => ?_⟩
  have h1 : d.isEmpty = false := List.isEmpty_eq_false.mpr hne
  have h2 : (missingFields d).isEmpty = false := by
    unfold missingFields; exact List.isEmpty_eq_false.mpr hmiss
  show create_game_obj st d = _
  unfold create_game_obj
  rw [if_neg (by simp [h1]), if_neg (by simp [h2])]
  rfl

/-- Witness for C5: a nonempty body holding only `title` is answered 400
listing `description, category_id, publisher_id`, and the store is kept. -/
theorem C5_create_missing_400_witness :
    create_game sampleState (some [("title", JVal.str "Hi")]) =
      (⟨400, Json.obj [("error", Json.str
         ("Missing required fields: " ++ String.intercalate ", "
           (required_fields.filter (fun f => !hasField [("title", JVal.str "Hi")] f))))]⟩,
       sampleState) :=
  C5_create_missing_400.2.2 sampleState [("title", JVal.str "Hi")]
    (by decide) (by decide)

/-- C6.  `Game.to_dict` always produces exactly the six-key object
`{id, title, description, publisher, category, starRating}`, in which the
publisher and category entries are the `{id, name}` summaries of the
related rows when those exist and `null` when they are absent, and the
stored `star_rating` value appears unchanged under the camel-case key
`starRating`. -/
theorem C6_to_dict_shape (st : AppState) (g : GameRow) :
    ∃ pub cat,
      Game.to_dict st g = Json.obj [
        ("id", Json.num (g.id : Rat)),
        ("title", g.title.toJson),
        ("description", g.description.toJson),
        ("publisher", pub),
        ("category", cat),
        ("starRating", g.star_rating.toJson)] ∧
      (st.findPublisher g.publisher_id = none → pub = Json.null) ∧
      (∀ p, st.findPublisher g.publisher_id = some p →
         pub = Json.obj [("id", Json.num (p.id : Rat)), ("name", Json.str p.name)]) ∧
      (st.findCategory g.category_id = none → cat = Json.null) ∧
      (∀ c, st.findCategory g.category_id = some c →
         cat = Json.obj [("id", Json.num (c.id : Rat)), ("name", Json.str c.name)]) := by
  refine ⟨_, _, rfl, fun h => by simp [h], fun p h => by simp [h],
          fun h => by simp [h], fun c h => by simp [h]⟩

/-- Witness for C6 on the sample store: both related rows exist, so the
projection embeds their summaries and renames the rating key. -/
theorem C6_to_dict_shape_witness :
    Game.to_dict sampleState
        ⟨1, JVal.str "Pipeline Panic",
         JVal.str "Build your DevOps pipeline before chaos ensues",
         JVal.num 4, JVal.num 1, JVal.num 1⟩ =
      Json.obj [
        ("id", Json.num 1),
        ("title", Json.str "Pipeline Panic"),
        ("description", Json.str "Build your DevOps pipeline before chaos ensues"),
        ("publisher", Json.obj [("id", Json.num 1), ("name", Json.str "DevGames Inc")]),
        ("category", Json.obj [("id", Json.num 1), ("name", Json.str "Strategy")]),
        ("starRating", Json.num 4)] := by
  obtain ⟨pub, cat, heq, _, hp, _, hc⟩ :=
    C6_to_dict_shape sampleState
      ⟨1, JVal.str "Pipeline Panic",
       JVal.str "Build your DevOps pipeline before chaos ensues",
       JVal.num 4, JVal.num 1, JVal.num 1⟩
  rw [heq, hp ⟨1, "DevGames Inc"⟩ (by decide), hc ⟨1, "Strategy"⟩ (by decide)]
  rfl

/-- Deleting the rows with one id leaves every lookup at a different id
unchanged. -/
theorem find_filter_ne_id (l : List GameRow) (id j : Int) (hj : j ≠ id) :
    (l.filter (fun g => g.id ≠ id)).find? (fun g => g.id = j) =
      l.find? (fun g => g.id = j) := by
  induction l with
  | nil => rfl
  | cons a t ih =>
    rw [List.filter_cons]
    by_cases ha : a.id = id
    · rw [if_neg (by simp [ha]),
         List.find?_cons_of_neg _ (by simp only [decide_eq_true_eq]; intro hh; exact hj (by rw [← hh, ha]))]
      exact ih
    · rw [if_pos (by simp [ha])]
      by_cases haj : a.id = j
      · rw [List.find?_cons_of_pos _ (by simp [haj]), List.find?_cons_of_pos _ (by simp [haj])]
      · rw [List.find?_cons_of_neg _ (by simp [haj]), List.find?_cons_of_neg _ (by simp [haj])]
        exact ih

/-- C8.  For every id present in the store, the delete handler answers 200
and a subsequent get-by-id on the same id answers 404: the delete removes
exactly the rows with that id, every other id resolving as before. -/
theorem C8_delete_then_get (st : AppState) (id : Int) (g : GameRow)
    (h : st.findGame id = some g) :
    (delete_game st id).1.status = 200 ∧
    (get_game (delete_game st id).2 id).1 =
      ⟨404, Json.obj [("error", Json.str "Game not found")]⟩ ∧
    (∀ j, j ≠ id → (delete_game st id).2.findGame j = st.findGame j) := by
  have hdel : delete_game st id =
      (⟨200, .obj [("message", .str "Game deleted successfully")]⟩,
       { st with games := st.games.filter (fun x => x.id ≠ id) }) := by
    simp [delete_game, h]
  rw [hdel]
  have hnone :
      ({ st with games := st.games.filter (fun x => x.id ≠ id) } : AppState).findGame id
        = none := by
    unfold AppState.findGame
    rw [List.find?_eq_none]
    intro x hx
    have := (List.mem_filter.mp hx).2
    simp_all
  refine ⟨rfl, ?_, fun j hj => find_filter_ne_id st.games id j hj⟩
  unfold get_game
  rw [hnone]
  rfl

/-- Witness for C8: deleting game 1 from the sample store yields 200, a
following get-by-id answers 404, and the (sole) other id 2 still misses. -/
theorem C8_delete_then_get_witness :
    (delete_game sampleState 1).1.status = 200 ∧
    (get_game (delete_game sampleState 1).2 1).1 =
      ⟨404, Json.obj [("error", Json.str "Game not found")]⟩ ∧
    (∀ j, j ≠ 1 → (delete_game sampleState 1).2.findGame j = sampleState.findGame j) :=
  C8_delete_then_get sampleState 1
    ⟨1, JVal.str "Pipeline Panic",
     JVal.str "Build your DevOps pipeline before chaos ensues",
     JVal.num 4, JVal.num 1, JVal.num 1⟩ (by decide)

/-- Split a handler-result pair equation into its components. -/
theorem respState_of_eq {r resp : Response} {s st' : AppState}
    (h : (r, s) = (resp, st')) : resp = r ∧ st' = s :=
  ⟨(Prod.ext_iff.mp h).1.symm, (Prod.ext_iff.mp h).2.symm⟩

/-- A present `category_id` referencing no category row makes the update
tail answer 404 without touching the store. -/
theorem update_with_category_404 (st : AppState) (id : Int)
    (d : List (String × JVal)) (g : GameRow)
    (hc : hasField d "category_id" = true)
    (hn : st.findCategory (getField d "category_id") = none) :
    update_with_category st id d g = (errResp 404 "Category not found", st) := by
  unfold update_with_category
  rw [if_pos hc, hn]

/-- A present `publisher_id` or `category_id` referencing no row makes the
update tail answer 404 without touching the store. -/
theorem update_with_publisher_404 (st : AppState) (id : Int)
    (d : List (String × JVal)) (g : GameRow)
    (hdisj : (hasField d "publisher_id" = true ∧
                st.findPublisher (getField d "publisher_id") = none) ∨
             (hasField d "category_id" = true ∧
                st.findCategory (getField d "category_id") = none)) :
    (update_with_publisher st id d g).1.status = 404 ∧
      (update_with_publisher st id d g).2 = st := by
  unfold update_with_publisher
  by_cases hp : hasField d "publisher_id" = true
  · rw [if_pos hp]
    cases hfp : st.findPublisher (getField d "publisher_id") with
    | none => simp [errResp]
    | some p =>
      rcases hdisj with ⟨_, hn⟩ | ⟨hc, hn⟩
      · rw [hn] at hfp; cases hfp
      · rw [update_with_category_404 st id d _ hc hn]; simp [errResp]
  · rw [if_neg hp]
    rcases hdisj with ⟨hp', _⟩ | ⟨hc, hn⟩
    · exact absurd hp' hp
    · rw [update_with_category_404 st id d g hc hn]; simp [errResp]

/-- A successful `Except` is an `ok`. -/
theorem except_isOk_exists {α β : Type} (e : Except α β) (h : e.isOk = true) :
    ∃ b, e = .ok b := by
  cases e with
  | error a => simp [Except.isOk, Except.toBool] at h
  | ok b => exact ⟨b, rfl⟩

/-- `Except.map` preserves success. -/
theorem except_isOk_map {α β γ : Type} (f : β → γ) (e : Except α β) :
    (e.map f).isOk = e.isOk := by
  cases e <;> rfl

/-- A succeeding (or skipped) title assignment moves `update_game` on to
the description assignment. -/
theorem update_title_step_ok (st : AppState) (id : Int) (d : List (String × JVal))
    (game g1 : GameRow)
    (h : (if hasField d "title" then
            (Game.validate_title (getField d "title")).map
              (fun t => { game with title := t })
          else .ok game : Except String GameRow) = .ok g1) :
    update_title_step st id d game = update_description_step st id d g1 := by
  unfold update_title_step
  rw [h]

/-- A succeeding (or skipped) description assignment moves `update_game`
on to the star-rating assignment and the referential tail. -/
theorem update_description_step_ok (st : AppState) (id : Int)
    (d : List (String × JVal)) (g1 g2 : GameRow)
    (h : (if hasField d "description" then
            (Game.validate_description (getField d "description")).map
              (fun de => { g1 with description := de })
          else .ok g1 : Except String GameRow) = .ok g2) :
    update_description_step st id d g1 = update_star_step st id d g2 := by
  unfold update_description_step
  rw [h]

/-- C2.  Every create request whose body is a nonempty object holding all
required fields but referencing a non-existent publisher or category is
answered 404 with the store unchanged; every update request addressed to
an existing game, with a nonempty body whose title/description values (if
present) pass validation, referencing a non-existent publisher or
category, is answered 404 with the store unchanged — so no game row is
persisted or mutated in either case. -/
theorem C2_refint_404 :
    (∀ (st : AppState) (d : List (String × JVal)),
       d ≠ [] →
       required_fields.filter (fun f => !hasField d f) = [] →
       (st.findPublisher (getField d "publisher_id") = none ∨
        st.findCategory (getField d "category_id") = none) →
       (create_game st (some d)).1.status = 404 ∧ (create_game st (some d)).2 = st) ∧
    (∀ (st : AppState) (id : Int) (g : GameRow) (d : List (String × JVal)),
       st.findGame id = some g →
       d ≠ [] →
       (hasField d "title" = true → (Game.validate_title (getField d "title")).isOk = true) →
       (hasField d "description" = true →
         (Game.validate_description (getField d "description")).isOk = true) →
       ((hasField d "publisher_id" = true ∧
           st.findPublisher (getField d "publisher_id") = none) ∨
        (hasField d "category_id" = true ∧
           st.findCategory (getField d "category_id") = none)) →
       (update_game st id (some d)).1.status = 404 ∧
         (update_game st id (some d)).2 = st) := by
  constructor
  · intro st d hne hreq hdisj
    have h1 : d.isEmpty = false := List.isEmpty_eq_false.mpr hne
    have hred : create_game st (some d) = create_with_publisher st d := by
      show create_game_obj st d = _
      unfold create_game_obj
      rw [if_neg (by simp [h1]), if_pos (by unfold missingFields; rw [hreq]; rfl)]
    rw [hred]
    unfold create_with_publisher
    cases hp : st.findPublisher (getField d "publisher_id") with
    | none => exact ⟨rfl, rfl⟩
    | some p =>
      rcases hdisj with hn | hn
      · rw [hn] at hp; cases hp
      · show (create_with_category st d).1.status = 404 ∧
          (create_with_category st d).2 = st
        unfold create_with_category
        rw [hn]
        exact ⟨rfl, rfl⟩
  · intro st id g d hfind hne hvt hvd hdisj
    have h1 : d.isEmpty = false := List.isEmpty_eq_false.mpr hne
    have hred : update_game st id (some d) = update_title_step st id d g := by
      unfold update_game
      rw [hfind]
      show update_game_obj st id g d = _
      unfold update_game_obj
      rw [if_neg (by simp [h1])]
    have hTok : ((if hasField d "title" = true then
                   (Game.validate_title (getField d "title")).map
                     (fun t => { g with title := t })
                 else .ok g : Except String GameRow)).isOk = true := by
      by_cases ht : hasField d "title" = true
      · rw [if_pos ht, except_isOk_map]; exact hvt ht
      · rw [if_neg ht]; rfl
    obtain ⟨g1, hg1⟩ := except_isOk_exists _ hTok
    have hDok : ((if hasField d "description" = true then
                   (Game.validate_description (getField d "description")).map
                     (fun de => { g1 with description := de })
                 else .ok g1 : Except String GameRow)).isOk = true := by
      by_cases hde : hasField d "description" = true
      · rw [if_pos hde, except_isOk_map]; exact hvd hde
      · rw [if_neg hde]; rfl
    obtain ⟨g2, hg2⟩ := except_isOk_exists _ hDok
    rw [hred, update_title_step_ok st id d g g1 hg1,
       update_description_step_ok st id d g1 g2 hg2]
    unfold update_star_step
    exact update_with_publisher_404 st id d _ hdisj

/-- Witness for C2: a complete create body naming publisher 99 (absent)
and an update body naming publisher 99 on existing game 1, both against
the sample store, both answered 404 with the store unchanged. -/
theorem C2_refint_404_witness :
    ((create_game sampleState (some [("title", JVal.str "Hi"),
        ("description", JVal.str "long enough text"),
        ("category_id", JVal.num 1), ("publisher_id", JVal.num 99)])).1.status = 404 ∧
     (create_game sampleState (some [("title", JVal.str "Hi"),
        ("description", JVal.str "long enough text"),
        ("category_id", JVal.num 1), ("publisher_id", JVal.num 99)])).2 = sampleState) ∧
    ((update_game sampleState 1 (some [("publisher_id", JVal.num 99)])).1.status = 404 ∧
     (update_game sampleState 1 (some [("publisher_id", JVal.num 99)])).2 = sampleState) :=
  ⟨C2_refint_404.1 sampleState _ (by decide) (by decide) (Or.inl (by decide)),
   C2_refint_404.2 sampleState 1
     ⟨1, JVal.str "Pipeline Panic",
      JVal.str "Build your DevOps pipeline before chaos ensues",
      JVal.num 4, JVal.num 1, JVal.num 1⟩ _
     (by decide) (by decide) (by decide) (by decide) (Or.inl ⟨by decide, by decide⟩)⟩

/-- On success, `Game.validate_description` returns its input unchanged. -/
theorem validate_description_ok (v r : JVal) (h : Game.validate_description v = .ok r) :
    r = v := by
  unfold Game.validate_description at h
  by_cases hv : v ≠ JVal.null
  · rw [if_pos hv] at h
    exact validate_string_length_ok _ _ _ _ _ h
  · rw [if_neg hv] at h
    exact (Except.ok.inj h).symm

/-- Replacing the rows with the given id and looking that id up again
yields the replacement, provided some row with that id was present. -/
theorem find_map_replace (l : List GameRow) (id : Int) (g : GameRow)
    (hg : g.id = id) (h : (l.find? (fun x => x.id = id)).isSome = true) :
    (l.map (fun x => if x.id = id then g else x)).find? (fun x => x.id = id) = some g := by
  induction l with
  | nil => simp [List.find?] at h
  | cons a t ih =>
    rw [List.map_cons]
    by_cases ha : a.id = id
    · rw [if_pos ha]
      exact List.find?_cons_of_pos _ (by simp [hg])
    · rw [if_neg ha, List.find?_cons_of_neg _ (by simp [ha])]
      apply ih
      rw [List.find?_cons_of_neg _ (by simp [ha])] at h
      exact h

/-- A 200 answer from the commit tail pins the post-state to the replaced
store. -/
theorem update_commit_200 (st : AppState) (id : Int) (g : GameRow)
    (resp : Response) (st' : AppState)
    (h : update_commit st id g = (resp, st')) (h200 : resp.status = 200) :
    st' = replaceGame st id g := by
  unfold update_commit at h
  by_cases hok : commitIntegrityOk g = true
  · rw [if_pos hok] at h
    cases hfg : (replaceGame st id g).findGame id with
    | some ug =>
      rw [hfg] at h
      exact (respState_of_eq h).2
    | none =>
      rw [hfg] at h
      exact (respState_of_eq h).2
  · rw [if_neg hok] at h
    obtain ⟨hr, _⟩ := respState_of_eq h
    rw [hr] at h200
    simp [errResp] at h200

/-- A 200 answer from the category tail: the final stored row agrees with
the incoming row except that a present `category_id` is overwritten with
the body's value. -/
theorem update_with_category_200_char (st : AppState) (id : Int)
    (d : List (String × JVal)) (g4 : GameRow) (resp : Response) (st' : AppState)
    (h : update_with_category st id d g4 = (resp, st')) (h200 : resp.status = 200) :
    ∃ g5, st' = replaceGame st id g5 ∧ g5.id = g4.id ∧
      (hasField d "category_id" = true → g5.category_id = getField d "category_id") ∧
      (hasField d "category_id" = false → g5.category_id = g4.category_id) ∧
      g5.title = g4.title ∧ g5.description = g4.description ∧
      g5.star_rating = g4.star_rating ∧ g5.publisher_id = g4.publisher_id := by
  unfold update_with_category at h
  by_cases hc : hasField d "category_id" = true
  · rw [if_pos hc] at h
    cases hfc : st.findCategory (getField d "category_id") with
    | none =>
      rw [hfc] at h
      obtain ⟨hr, _⟩ := respState_of_eq h
      rw [hr] at h200
      simp [errResp] at h200
    | some c =>
      rw [hfc] at h
      replace h : update_commit st id
          { g4 with category_id := getField d "category_id" } = (resp, st') := h
      have hst := update_commit_200 st id _ resp st' h h200
      exact ⟨_, hst, rfl, fun _ => rfl,
             fun hf => absurd hc (by simp [hf]), rfl, rfl, rfl, rfl⟩
  · rw [if_neg hc] at h
    have hst := update_commit_200 st id g4 resp st' h h200
    exact ⟨g4, hst, rfl, fun ht => absurd ht hc, fun _ => rfl, rfl, rfl, rfl, rfl⟩

/-- A 200 answer from the publisher tail: the final stored row agrees with
the incoming row except that present `publisher_id`/`category_id` values
are overwritten with the body's values. -/
theorem update_with_publisher_200_char (st : AppState) (id : Int)
    (d : List (String × JVal)) (g3 : GameRow) (resp : Response) (st' : AppState)
    (h : update_with_publisher st id d g3 = (resp, st')) (h200 : resp.status = 200) :
    ∃ g5, st' = replaceGame st id g5 ∧ g5.id = g3.id ∧
      (hasField d "publisher_id" = true → g5.publisher_id = getField d "publisher_id") ∧
      (hasField d "publisher_id" = false → g5.publisher_id = g3.publisher_id) ∧
      (hasField d "category_id" = true → g5.category_id = getField d "category_id") ∧
      (hasField d "category_id" = false → g5.category_id = g3.category_id) ∧
      g5.title = g3.title ∧ g5.description = g3.description ∧
      g5.star_rating = g3.star_rating := by
  unfold update_with_publisher at h
  by_cases hp : hasField d "publisher_id" = true
  · rw [if_pos hp] at h
    cases hfp : st.findPublisher (getField d "publisher_id") with
    | none =>
      rw [hfp] at h
      obtain ⟨hr, _⟩ := respState_of_eq h
      rw [hr] at h200
      simp [errResp] at h200
    | some p =>
      rw [hfp] at h
      replace h : update_with_category st id d
          { g3 with publisher_id := getField d "publisher_id" } = (resp, st') := h
      obtain ⟨g5, hst, hid, hc1, hc0, ht, hd, hs, hpub⟩ :=
        update_with_category_200_char st id d _ resp st' h h200
      exact ⟨g5, hst, hid, fun _ => hpub, fun hf => absurd hp (by simp [hf]),
             hc1, hc0, ht, hd, hs⟩
  · rw [if_neg hp] at h
    obtain ⟨g5, hst, hid, hc1, hc0, ht, hd, hs, hpub⟩ :=
      update_with_category_200_char st id d g3 resp st' h h200
    exact ⟨g5, hst, hid, fun htt => absurd htt hp, fun _ => hpub,
           hc1, hc0, ht, hd, hs⟩

/-- A succeeding title assignment leaves every attribute but `title`
unchanged, and `title` holds the (unchanged) body value when present. -/
theorem update_title_fields (d : List (String × JVal)) (game g1 : GameRow)
    (h : (if hasField d "title" then
            (Game.validate_title (getField d "title")).map
              (fun t => { game with title := t })
          else .ok game : Except String GameRow) = .ok g1) :
    g1.id = game.id ∧
    (hasField d "title" = true → g1.title = getField d "title") ∧
    (hasField d "title" = false → g1.title = game.title) ∧
    g1.description = game.description ∧ g1.star_rating = game.star_rating ∧
    g1.publisher_id = game.publisher_id ∧ g1.category_id = game.category_id := by
  by_cases ht : hasField d "title" = true
  · rw [if_pos ht] at h
    cases hv : Game.validate_title (getField d "title") with
    | error e => rw [hv] at h; cases h
    | ok t =>
      rw [hv] at h
      simp only [Except.map] at h
      cases Except.ok.inj h
      refine ⟨rfl, fun _ => ?_, fun hf => absurd ht (by simp [hf]), rfl, rfl, rfl, rfl⟩
      exact validate_string_length_ok _ _ _ _ _ hv
  · rw [if_neg ht] at h
    cases Except.ok.inj h
    exact ⟨rfl, fun htt => absurd htt ht, fun _ => rfl, rfl, rfl, rfl, rfl⟩

/-- A succeeding description assignment leaves every attribute but
`description` unchanged, and `description` holds the (unchanged) body
value when present. -/
theorem update_description_fields (d : List (String × JVal)) (g1 g2 : GameRow)
    (h : (if hasField d "description" then
            (Game.validate_description (getField d "description")).map
              (fun de => { g1 with description := de })
          else .ok g1 : Except String GameRow) = .ok g2) :
    g2.id = g1.id ∧
    (hasField d "description" = true → g2.description = getField d "description") ∧
    (hasField d "description" = false → g2.description = g1.description) ∧
    g2.title = g1.title ∧ g2.star_rating = g1.star_rating ∧
    g2.publisher_id = g1.publisher_id ∧ g2.category_id = g1.category_id := by
  by_cases hde : hasField d "description" = true
  · rw [if_pos hde] at h
    cases hv : Game.validate_description (getField d "description") with
    | error e => rw [hv] at h; cases h
    | ok de =>
      rw [hv] at h
      simp only [Except.map] at h
      cases Except.ok.inj h
      refine ⟨rfl, fun _ => ?_, fun hf => absurd hde (by simp [hf]), rfl, rfl, rfl, rfl⟩
      exact validate_description_ok _ _ hv
  · rw [if_neg hde] at h
    cases Except.ok.inj h
    exact ⟨rfl, fun htt => absurd htt hde, fun _ => rfl, rfl, rfl, rfl, rfl⟩

/-- Full characterization of a 200 answer from `update_game`: the target
game was found, and the post-state stores a row whose attributes are the
body values for the present fields and the previous values for the absent
ones. -/
theorem update_game_200 (st st' : AppState) (id : Int) (d : List (String × JVal))
    (resp : Response) (h : update_game st id (some d) = (resp, st'))
    (h200 : resp.status = 200) :
    ∃ old new,
      st.findGame id = some old ∧ old.id = id ∧ new.id = id ∧
      st' = replaceGame st id new ∧ st'.findGame id = some new ∧
      (hasField d "title" = true → new.title = getField d "title") ∧
      (hasField d "title" = false → new.title = old.title) ∧
      (hasField d "description" = true → new.description = getField d "description") ∧
      (hasField d "description" = false → new.description = old.description) ∧
      (hasField d "star_rating" = true → new.star_rating = getField d "star_rating") ∧
      (hasField d "star_rating" = false → new.star_rating = old.star_rating) ∧
      (hasField d "publisher_id" = true → new.publisher_id = getField d "publisher_id") ∧
      (hasField d "publisher_id" = false → new.publisher_id = old.publisher_id) ∧
      (hasField d "category_id" = true → new.category_id = getField d "category_id") ∧
      (hasField d "category_id" = false → new.category_id = old.category_id) := by
  cases hfind : st.findGame id with
  | none =>
    unfold update_game at h
    rw [hfind] at h
    obtain ⟨hr, _⟩ := respState_of_eq h
    rw [hr] at h200
    simp [errResp] at h200
  | some game =>
    have hgame_id : game.id = id := by
      have := List.find?_some hfind
      exact of_decide_eq_true this
    have hred : update_game st id (some d) = update_game_obj st id game d := by
      unfold update_game
      rw [hfind]
    rw [hred] at h
    unfold update_game_obj at h
    by_cases hde : d.isEmpty = true
    · rw [if_pos hde] at h
      obtain ⟨hr, _⟩ := respState_of_eq h
      rw [hr] at h200
      simp [errResp] at h200
    · rw [if_neg hde] at h
      unfold update_title_step at h
      cases hT : (if hasField d "title" then
                    (Game.validate_title (getField d "title")).map
                      (fun t => { game with title := t })
                  else .ok game : Except String GameRow) with
      | error e =>
        rw [hT] at h
        obtain ⟨hr, _⟩ := respState_of_eq h
        rw [hr] at h200
        simp [errResp] at h200
      | ok g1 =>
        rw [hT] at h
        replace h : update_description_step st id d g1 = (resp, st') := h
        unfold update_description_step at h
        cases hD : (if hasField d "description" then
                      (Game.validate_description (getField d "description")).map
                        (fun de => { g1 with description := de })
                    else .ok g1 : Except String GameRow) with
        | error e =>
          rw [hD] at h
          obtain ⟨hr, _⟩ := respState_of_eq h
          rw [hr] at h200
          simp [errResp] at h200
        | ok g2 =>
          rw [hD] at h
          replace h : update_star_step st id d g2 = (resp, st') := h
          unfold update_star_step at h
          obtain ⟨g5, hst, hid5, hp1, hp0, hc1, hc0, ht5, hd5, hs5⟩ :=
            update_with_publisher_200_char st id d _ resp st' h h200
          obtain ⟨hid1, ht1, ht0, hd1, hs1, hpub1, hcat1⟩ :=
            update_title_fields d game g1 hT
          obtain ⟨hid2, hde1, hde0, ht2, hs2, hpub2, hcat2⟩ :=
            update_description_fields d g1 g2 hD
          have hg3id : (if hasField d "star_rating" then
                          { g2 with star_rating := getField d "star_rating" }
                        else g2).id = g2.id := by
            by_cases hs : hasField d "star_rating" = true
            · rw [if_pos hs]
            · rw [if_neg hs]
          have hg3t : (if hasField d "star_rating" then
                         { g2 with star_rating := getField d "star_rating" }
                       else g2).title = g2.title := by
            by_cases hs : hasField d "star_rating" = true
            · rw [if_pos hs]
            · rw [if_neg hs]
          have hg3d : (if hasField d "star_rating" then
                         { g2 with star_rating := getField d "star_rating" }
                       else g2).description = g2.description := by
            by_cases hs : hasField d "star_rating" = true
            · rw [if_pos hs]
            · rw [if_neg hs]
          have hg3p : (if hasField d "star_rating" then
                         { g2 with star_rating := getField d "star_rating" }
                       else g2).publisher_id = g2.publisher_id := by
            by_cases hs : hasField d "star_rating" = true
            · rw [if_pos hs]
            · rw [if_neg hs]
          have hg3c : (if hasField d "star_rating" then
                         { g2 with star_rating := getField d "star_rating" }
                       else g2).category_id = g2.category_id := by
            by_cases hs : hasField d "star_rating" = true
            · rw [if_pos hs]
            · rw [if_neg hs]
          have hg3s1 : hasField d "star_rating" = true →
              (if hasField d "star_rating" then
                 { g2 with star_rating := getField d "star_rating" }
               else g2).star_rating = getField d "star_rating" := by
            intro hs
            rw [if_pos hs]
          have hg3s0 : hasField d "star_rating" = false →
              (if hasField d "star_rating" then
                 { g2 with star_rating := getField d "star_rating" }
               else g2).star_rating = g2.star_rating := by
            intro hs
            rw [if_neg (by simp [hs])]
          have hnewid : g5.id = id := by
            rw [hid5, hg3id, hid2, hid1, hgame_id]
          refine ⟨game, g5, rfl, hgame_id, hnewid, hst, ?_,
                  fun hf => by rw [ht5, hg3t, ht2]; exact ht1 hf,
                  fun hf => by rw [ht5, hg3t, ht2]; exact ht0 hf,
                  fun hf => by rw [hd5, hg3d]; exact hde1 hf,
                  fun hf => by rw [hd5, hg3d, hde0 hf, hd1],
                  fun hf => by rw [hs5]; exact hg3s1 hf,
                  fun hf => by rw [hs5, hg3s0 hf, hs2, hs1],
                  fun hf => hp1 hf,
                  fun hf => by rw [hp0 hf, hg3p, hpub2, hpub1],
                  fun hf => hc1 hf,
                  fun hf => by rw [hc0 hf, hg3c, hcat2, hcat1]⟩
          rw [hst]
          show ((replaceGame st id g5).games.find? (fun x => x.id = id)) = some g5
          unfold replaceGame
          exact find_map_replace st.games id g5 hnewid
            (by rw [show st.games.find? (fun x => x.id = id) = st.findGame id from rfl, hfind]; rfl)

/-- C4.  Every successful (200) update of an existing game with a partial
JSON body overwrites exactly the attributes among title, description,
star_rating, publisher_id, category_id whose keys are present in the body
with the body's values, and every attribute whose key is absent retains
its prior value. -/
theorem C4_update_partial_patch (st st' : AppState) (id : Int)
    (d : List (String × JVal)) (resp : Response)
    (h : update_game st id (some d) = (resp, st')) (h200 : resp.status = 200) :
    ∃ old new, st.findGame id = some old ∧ st'.findGame id = some new ∧
      (hasField d "title" = true → new.title = getField d "title") ∧
      (hasField d "title" = false → new.title = old.title) ∧
      (hasField d "description" = true → new.description = getField d "description") ∧
      (hasField d "description" = false → new.description = old.description) ∧
      (hasField d "star_rating" = true → new.star_rating = getField d "star_rating") ∧
      (hasField d "star_rating" = false → new.star_rating = old.star_rating) ∧
      (hasField d "publisher_id" = true → new.publisher_id = getField d "publisher_id") ∧
      (hasField d "publisher_id" = false → new.publisher_id = old.publisher_id) ∧
      (hasField d "category_id" = true → new.category_id = getField d "category_id") ∧
      (hasField d "category_id" = false → new.category_id = old.category_id) := by
  obtain ⟨old, new, e1, _, _, _, e5, c1, c2, c3, c4, c5, c6, c7, c8, c9, c10⟩ :=
    update_game_200 st st' id d resp h h200
  exact ⟨old, new, e1, e5, c1, c2, c3, c4, c5, c6, c7, c8, c9, c10⟩

/-- Witness for C4: updating game 1 of the sample store with
`{title: "Updated", star_rating: 5}` succeeds and the frame conditions
hold for that concrete run. -/
theorem C4_update_partial_patch_witness :
    ∃ old new,
      sampleState.findGame 1 = some old ∧
      (update_game sampleState 1
        (some [("title", JVal.str "Updated"), ("star_rating", JVal.num 5)])).2.findGame 1
        = some new ∧
      (hasField [("title", JVal.str "Updated"), ("star_rating", JVal.num 5)] "title" = true →
        new.title = getField [("title", JVal.str "Updated"), ("star_rating", JVal.num 5)] "title") ∧
      (hasField [("title", JVal.str "Updated"), ("star_rating", JVal.num 5)] "title" = false →
        new.title = old.title) ∧
      (hasField [("title", JVal.str "Updated"), ("star_rating", JVal.num 5)] "description" = true →
        new.description =
          getField [("title", JVal.str "Updated"), ("star_rating", JVal.num 5)] "description") ∧
      (hasField [("title", JVal.str "Updated"), ("star_rating", JVal.num 5)] "description" = false →
        new.description = old.description) ∧
      (hasField [("title", JVal.str "Updated"), ("star_rating", JVal.num 5)] "star_rating" = true →
        new.star_rating =
          getField [("title", JVal.str "Updated"), ("star_rating", JVal.num 5)] "star_rating") ∧
      (hasField [("title", JVal.str "Updated"), ("star_rating", JVal.num 5)] "star_rating" = false →
        new.star_rating = old.star_rating) ∧
      (hasField [("title", JVal.str "Updated"), ("star_rating", JVal.num 5)] "publisher_id" = true →
        new.publisher_id =
          getField [("title", JVal.str "Updated"), ("star_rating", JVal.num 5)] "publisher_id") ∧
      (hasField [("title", JVal.str "Updated"), ("star_rating", JVal.num 5)] "publisher_id" = false →
        new.publisher_id = old.publisher_id) ∧
      (hasField [("title", JVal.str "Updated"), ("star_rating", JVal.num 5)] "category_id" = true →
        new.category_id =
          getField [("title", JVal.str "Updated"), ("star_rating", JVal.num 5)] "category_id") ∧
      (hasField [("title", JVal.str "Updated"), ("star_rating", JVal.num 5)] "category_id" = false →
        new.category_id = old.category_id) :=
  C4_update_partial_patch sampleState _ 1
    [("title", JVal.str "Updated"), ("star_rating", JVal.num 5)] _ rfl (by decide)

deriving instance DecidableEq for Except

/-- `Game.build` stores the `star_rating` keyword argument unchanged. -/
theorem build_star_rating (id : Int) (t de c p v : JVal) (g : GameRow)
    (h : Game.build id t de c p v = .ok g) : g.star_rating = v := by
  unfold Game.build at h
  cases hvt : Game.validate_title t with
  | error e => rw [hvt] at h; cases h
  | ok tt =>
    rw [hvt] at h
    cases hvd : Game.validate_description de with
    | error e => rw [hvd] at h; cases h
    | ok dd =>
      rw [hvd] at h
      cases Except.ok.inj h
      rfl

/-- C10.  No validator is attached to `star_rating`: constructing a `Game`
stores any star_rating value unchanged and its success never depends on
that value; a successful create (201) stores the body's `star_rating`
value unchanged in the new row; a successful update (200) with
`star_rating` present stores the body's value unchanged. -/
theorem C10_star_rating_unvalidated :
    (∀ (id : Int) (t de c p v v' : JVal),
       (∀ g, Game.build id t de c p v = .ok g → g.star_rating = v) ∧
       (Game.build id t de c p v).isOk = (Game.build id t de c p v').isOk) ∧
    (∀ (st st' : AppState) (d : List (String × JVal)) (resp : Response),
       create_game st (some d) = (resp, st') → resp.status = 201 →
       ∃ g, st'.games = st.games ++ [g] ∧ g.star_rating = getField d "star_rating") ∧
    (∀ (st st' : AppState) (id : Int) (d : List (String × JVal)) (resp : Response),
       update_game st id (some d) = (resp, st') → resp.status = 200 →
       hasField d "star_rating" = true →
       ∃ g, st'.findGame id = some g ∧ g.star_rating = getField d "star_rating") := by
  refine ⟨fun id t de c p v v' => ⟨fun g hg => build_star_rating id t de c p v g hg, ?_⟩,
          ?_, ?_⟩
  · unfold Game.build
    cases hvt : Game.validate_title t with
    | error e => rfl
    | ok tt =>
      cases hvd : Game.validate_description de with
      | error e => rfl
      | ok dd => rfl
  · intro st st' d resp h h201
    replace h : create_game_obj st d = (resp, st') := h
    unfold create_game_obj at h
    by_cases hde : d.isEmpty = true
    · rw [if_pos hde] at h
      obtain ⟨hr, _⟩ := respState_of_eq h
      rw [hr] at h201
      simp [errResp] at h201
    · rw [if_neg hde] at h
      by_cases hmiss : (missingFields d).isEmpty = true
      · rw [if_pos hmiss] at h
        unfold create_with_publisher at h
        cases hfp : st.findPublisher (getField d "publisher_id") with
        | none =>
          rw [hfp] at h
          obtain ⟨hr, _⟩ := respState_of_eq h
          rw [hr] at h201
          simp [errResp] at h201
        | some p =>
          rw [hfp] at h
          replace h : create_with_category st d = (resp, st') := h
          unfold create_with_category at h
          cases hfc : st.findCategory (getField d "category_id") with
          | none =>
            rw [hfc] at h
            obtain ⟨hr, _⟩ := respState_of_eq h
            rw [hr] at h201
            simp [errResp] at h201
          | some c =>
            rw [hfc] at h
            cases hb : Game.build st.nextGameId (getField d "title")
                (getField d "description") (getField d "category_id")
                (getField d "publisher_id") (getField d "star_rating") with
            | error e =>
              rw [hb] at h
              obtain ⟨hr, _⟩ := respState_of_eq h
              rw [hr] at h201
              simp [errResp] at h201
            | ok g =>
              rw [hb] at h
              replace h : create_insert st g = (resp, st') := h
              unfold create_insert at h
              by_cases hok : commitIntegrityOk g = true
              · rw [if_pos hok] at h
                cases hfg : (insertGame st g).findGame g.id with
                | some cg =>
                  rw [hfg] at h
                  obtain ⟨_, hs⟩ := respState_of_eq h
                  exact ⟨g, by rw [hs]; rfl,
                         build_star_rating st.nextGameId _ _ _ _ _ g hb⟩
                | none =>
                  rw [hfg] at h
                  obtain ⟨hr, _⟩ := respState_of_eq h
                  rw [hr] at h201
                  simp [errResp] at h201
              · rw [if_neg hok] at h
                obtain ⟨hr, _⟩ := respState_of_eq h
                rw [hr] at h201
                simp [errResp] at h201
      · rw [if_neg hmiss] at h
        obtain ⟨hr, _⟩ := respState_of_eq h
        rw [hr] at h201
        simp [errResp] at h201
  · intro st st' id d resp h h200 hstar
    obtain ⟨old, new, _, _, _, _, e5, _, _, _, _, c5, _, _, _, _, _⟩ :=
      update_game_200 st st' id d resp h h200
    exact ⟨new, e5, c5 hstar⟩

/-- Witness for C10: a boolean star_rating is stored unchanged by the
entity constructor, a create with star_rating 5 stores 5 in the new row,
and an update assigning a boolean star_rating to game 1 stores it. -/
theorem C10_star_rating_unvalidated_witness :
    (⟨2, JVal.str "Hi", JVal.str "a long enough text", JVal.boolean true,
       JVal.num 1, JVal.num 1⟩ : GameRow).star_rating = JVal.boolean true ∧
    (∃ g, (create_game sampleState
        (some [("title", JVal.str "Hi"), ("description", JVal.str "a long enough text"),
               ("category_id", JVal.num 1), ("publisher_id", JVal.num 1),
               ("star_rating", JVal.num 5)])).2.games =
          sampleState.games ++ [g] ∧
        g.star_rating = getField
          [("title", JVal.str "Hi"), ("description", JVal.str "a long enough text"),
           ("category_id", JVal.num 1), ("publisher_id", JVal.num 1),
           ("star_rating", JVal.num 5)] "star_rating") ∧
    (∃ g, (update_game sampleState 1
        (some [("star_rating", JVal.boolean true)])).2.findGame 1 = some g ∧
        g.star_rating = getField [("star_rating", JVal.boolean true)] "star_rating") :=
  ⟨(C10_star_rating_unvalidated.1 2 (JVal.str "Hi") (JVal.str "a long enough text")
      (JVal.num 1) (JVal.num 1) (JVal.boolean true) JVal.null).1
      ⟨2, JVal.str "Hi", JVal.str "a long enough text", JVal.boolean true,
       JVal.num 1, JVal.num 1⟩ (by decide),
   C10_star_rating_unvalidated.2.1 sampleState _
     [("title", JVal.str "Hi"), ("description", JVal.str "a long enough text"),
      ("category_id", JVal.num 1), ("publisher_id", JVal.num 1),
      ("star_rating", JVal.num 5)] _ rfl (by decide),
   C10_star_rating_unvalidated.2.2 sampleState _ 1
     [("star_rating", JVal.boolean true)] _ rfl (by decide) (by decide)⟩
